import Mathlib

set_option maxRecDepth 4000
set_option maxHeartbeats 1000000

namespace SweBenchValidator

/-- JSON values as produced by Python `json.loads` and passed around the
validator (`src/swe_bench_validator/validator.py`).  Object keys are strings,
as JSON guarantees; numbers are modelled as integers (the data-point format
and harness reports use no floats). -/
inductive JValue where
  | jnull
  | jbool (b : Bool)
  | jnum (n : Int)
  | jstr (s : String)
  | jarr (elems : List JValue)
  | jobj (fields : List (String × JValue))

/-- Single-quote character, used to build Python-style diagnostic strings. -/
def squote : String := String.singleton (Char.ofNat 39)

/-- Opening-brace character of Python dict renderings. -/
def lbrChar : Char := Char.ofNat 123

/-- Closing-brace character of Python dict renderings. -/
def rbrChar : Char := Char.ofNat 125

mutual
/-- Python `repr` of a JSON value (used by `str` on containers). -/
def pyRepr : JValue → String
  | .jnull => "None"
  | .jbool true => "True"
  | .jbool false => "False"
  | .jnum n => toString n
  | .jstr s => squote ++ s ++ squote
  | .jarr xs => "[" ++ String.intercalate ", " (pyReprList xs) ++ "]"
  | .jobj fs =>
    String.singleton lbrChar ++ String.intercalate ", " (pyReprFields fs)
      ++ String.singleton rbrChar

/-- Renders each element of a Python list for `repr`. -/
def pyReprList : List JValue → List String
  | [] => []
  | v :: vs => pyRepr v :: pyReprList vs

/-- Renders each entry of a Python dict for `repr`. -/
def pyReprFields : List (String × JValue) → List String
  | [] => []
  | (k, v) :: fs => (squote ++ k ++ squote ++ ": " ++ pyRepr v) :: pyReprFields fs
end

/-- Python `str()` of a value, as interpolated by f-strings: a string renders
as itself, other values via `repr`. -/
def pyStr : JValue → String
  | .jstr s => s
  | v => pyRepr v

/-- Python truthiness of a JSON value (`if not x` tests). -/
def JValue.truthy : JValue → Bool
  | .jnull => false
  | .jbool b => b
  | .jnum n => n != 0
  | .jstr s => !s.isEmpty
  | .jarr xs => !xs.isEmpty
  | .jobj fs => !fs.isEmpty

/-- Python `type(x).__name__` for JSON-derived values. -/
def pyTypeName : JValue → String
  | .jnull => "NoneType"
  | .jbool _ => "bool"
  | .jnum _ => "int"
  | .jstr _ => "str"
  | .jarr _ => "list"
  | .jobj _ => "dict"

/-- Association-list lookup mirroring Python dict access with string keys. -/
def alookup (fs : List (String × JValue)) (k : String) : Option JValue :=
  match fs with
  | [] => none
  | (k2, v) :: rest => if k2 == k then some v else alookup rest k

/-- Python dict insertion semantics: an existing key keeps its position and
receives the new value, a new key is appended (`json.loads` keeps the last
duplicate). -/
def insertKey (fs : List (String × JValue)) (k : String) (v : JValue) :
    List (String × JValue) :=
  if fs.any (fun p => p.1 == k) then
    fs.map (fun p => if p.1 == k then (k, v) else p)
  else fs ++ [(k, v)]

/-- JSON whitespace. -/
def isJsonWs (c : Char) : Bool := c == ' ' || c == '\t' || c == '\n' || c == '\r'

/-- Skips JSON whitespace. -/
def skipWs : List Char → List Char
  | [] => []
  | c :: cs => if isJsonWs c then skipWs cs else c :: cs

/-- Parses a run of decimal digits. -/
def parseDigits (acc : Nat) : List Char → Nat × List Char
  | [] => (acc, [])
  | c :: cs =>
    if c.isDigit then parseDigits (acc * 10 + (c.toNat - 48)) cs else (acc, c :: cs)

/-- Parses the body of a JSON string literal after the opening quote. -/
def parseStringBody (acc : List Char) : List Char → Except String (String × List Char)
  | [] => .error "Unterminated string"
  | c :: cs =>
    if c == '"' then .ok (String.mk acc.reverse, cs)
    else if c == '\\' then
      match cs with
      | [] => .error "Unterminated string"
      | e :: cs2 =>
        if e == '"' then parseStringBody ('"' :: acc) cs2
        else if e == '\\' then parseStringBody ('\\' :: acc) cs2
        else if e == '/' then parseStringBody ('/' :: acc) cs2
        else if e == 'n' then parseStringBody ('\n' :: acc) cs2
        else if e == 't' then parseStringBody ('\t' :: acc) cs2
        else if e == 'r' then parseStringBody ('\r' :: acc) cs2
        else if e == 'b' then parseStringBody (Char.ofNat 8 :: acc) cs2
        else if e == 'f' then parseStringBody (Char.ofNat 12 :: acc) cs2
        else .error "Invalid escape"
    else parseStringBody (c :: acc) cs

mutual
/-- Model of `json.loads` value parsing, fuel-bounded.  Covers the JSON
fragment the data points and harness reports exercise (no floats, exponents
or unicode escapes). -/
def parseValue (fuel : Nat) (cs0 : List Char) : Except String (JValue × List Char) :=
  match fuel with
  | 0 => .error "Too deeply nested"
  | fuel + 1 =>
    match skipWs cs0 with
    | [] => .error "Expecting value"
    | c :: cs =>
      if c == '"' then
        match parseStringBody [] cs with
        | .ok (s, rest) => .ok (.jstr s, rest)
        | .error e => .error e
      else if c == 't' then
        match cs with
        | 'r' :: 'u' :: 'e' :: rest => .ok (.jbool true, rest)
        | _ => .error "Expecting value"
      else if c == 'f' then
        match cs with
        | 'a' :: 'l' :: 's' :: 'e' :: rest => .ok (.jbool false, rest)
        | _ => .error "Expecting value"
      else if c == 'n' then
        match cs with
        | 'u' :: 'l' :: 'l' :: rest => .ok (.jnull, rest)
        | _ => .error "Expecting value"
      else if c == '-' then
        match cs with
        | d :: cs2 =>
          if d.isDigit then
            let (n, rest) := parseDigits (d.toNat - 48) cs2
            .ok (.jnum (-(Int.ofNat n)), rest)
          else .error "Expecting value"
        | [] => .error "Expecting value"
      else if c.isDigit then
        let (n, rest) := parseDigits (c.toNat - 48) cs
        .ok (.jnum (Int.ofNat n), rest)
      else if c == '[' then
        match skipWs cs with
        | ']' :: rest => .ok (.jarr [], rest)
        | cs2 => parseArrayRest fuel cs2 []
      else if c == lbrChar then
        match skipWs cs with
        | c2 :: rest =>
          if c2 == rbrChar then .ok (.jobj [], rest)
          else parseObjRest fuel (c2 :: rest) []
        | [] => .error "Unterminated object"
      else .error "Expecting value"

/-- Parses the elements of a non-empty JSON array. -/
def parseArrayRest (fuel : Nat) (cs : List Char) (acc : List JValue) :
    Except String (JValue × List Char) :=
  match fuel with
  | 0 => .error "Too deeply nested"
  | fuel + 1 =>
    match parseValue fuel cs with
    | .error e => .error e
    | .ok (v, rest) =>
      match skipWs rest with
      | ',' :: rest2 => parseArrayRest fuel rest2 (acc ++ [v])
      | ']' :: rest2 => .ok (.jarr (acc ++ [v]), rest2)
      | _ => .error "Expecting delimiter"

/-- Parses the members of a non-empty JSON object. -/
def parseObjRest (fuel : Nat) (cs : List Char) (acc : List (String × JValue)) :
    Except String (JValue × List Char) :=
  match fuel with
  | 0 => .error "Too deeply nested"
  | fuel + 1 =>
    match skipWs cs with
    | [] => .error "Unterminated object"
    | c :: cs2 =>
      if c == '"' then
        match parseStringBody [] cs2 with
        | .error e => .error e
        | .ok (k, rest) =>
          match skipWs rest with
          | ':' :: rest2 =>
            match parseValue fuel rest2 with
            | .error e => .error e
            | .ok (v, rest3) =>
              match skipWs rest3 with
              | ',' :: rest4 => parseObjRest fuel rest4 (insertKey acc k v)
              | c2 :: rest4 =>
                if c2 == rbrChar then .ok (.jobj (insertKey acc k v), rest4)
                else .error "Expecting delimiter"
              | [] => .error "Expecting delimiter"
          | _ => .error "Expecting colon"
      else .error "Expecting property name"
end

/-- Model of Python `json.loads` on a whole document. -/
def jsonLoads (s : String) : Except String JValue :=
  match parseValue (2 * s.data.length + 2) s.data with
  | .error e => .error e
  | .ok (v, rest) =>
    match skipWs rest with
    | [] => .ok v
    | _ => .error "Extra data"

/-- Python `str.upper()` (ASCII, as exercised by the status strings). -/
def pyUpper (s : String) : String := String.mk (s.data.map Char.toUpper)

/-- Python `str.strip()` on the whitespace the validator meets (space, tab,
newline, carriage return). -/
def pyStrip (s : String) : String :=
  String.mk (((s.data.dropWhile Char.isWhitespace).reverse.dropWhile
    Char.isWhitespace).reverse)

/-- The exception classes `validate_file` distinguishes: `StructuralError`,
`ExecutionError`, and any other Python exception (KeyError, TypeError,
AttributeError, ...), each carrying its `str()` rendering. -/
inductive PyExc where
  | structuralExc (msg : String)
  | executionExc (msg : String)
  | otherExc (msg : String)

/-- Python `str(e)` of an exception. -/
def excStr : PyExc → String
  | .structuralExc m => m
  | .executionExc m => m
  | .otherExc m => m

/-- Error text of Python `AttributeError` raised by `.get` on a non-dict. -/
def attrErrGet : String := "AttributeError: object has no attribute get"

/-- Python `x.get(key, default)` where `key` is an arbitrary value: raises
`AttributeError` unless `x` is a dict; a non-string key never matches a
JSON-derived (string-keyed) dict. -/
def dictGetKey (v : JValue) (key : JValue) (default : JValue) :
    Except PyExc JValue :=
  match v with
  | .jobj fs =>
    match key with
    | .jstr k => .ok ((alookup fs k).getD default)
    | _ => .ok default
  | _ => .error (.otherExc attrErrGet)

/-- Python `x.get(key, default)` with a string-literal key. -/
def dictGetS (v : JValue) (k : String) (default : JValue) : Except PyExc JValue :=
  dictGetKey v (.jstr k) default

/-- Python `key in x` for a dict (only evaluated on dicts in the source). -/
def hasKeyJ (v : JValue) (k : String) : Bool :=
  match v with
  | .jobj fs => fs.any (fun p => p.1 == k)
  | _ => false

/-- Python `x[key]` on a dict whose key is known to be present. -/
def getKeyD (v : JValue) (k : String) : JValue :=
  match v with
  | .jobj fs => (alookup fs k).getD .jnull
  | _ => .jnull

/-- Python `isinstance(x, dict)`. -/
def isDict : JValue → Bool
  | .jobj _ => true
  | _ => false

/-- Python `data_point[key]` on the loaded record: `KeyError` when absent. -/
def pyIndex (fs : List (String × JValue)) (k : String) : Except PyExc JValue :=
  match alookup fs k with
  | some v => .ok v
  | none => .error (.otherExc ("KeyError: " ++ squote ++ k ++ squote))

/-- The required data-point fields (`DataPointValidator.REQUIRED_FIELDS`). -/
def REQUIRED_FIELDS : List String :=
  ["instance_id", "repo", "base_commit", "patch", "FAIL_TO_PASS", "PASS_TO_PASS"]

/-- How a data-point file presents itself to `load_data_point`: missing,
unreadable, unparseable JSON (with the decoder message), or a parsed JSON
document. -/
inductive RawFile where
  | missing
  | unreadable (msg : String)
  | badJson (msg : String)
  | parsed (v : JValue)

/-- Validation of one test-list field inside `load_data_point` (validator.py
lines 190-208): the field must be a string whose JSON decoding is a list;
the inner `StructuralError` messages name the field, not the file. -/
def checkTestListField (data : List (String × JValue)) (f : String) :
    Except PyExc Unit :=
  match (alookup data f).getD .jnull with
  | .jstr s =>
    match jsonLoads s with
    | .ok decoded =>
      match decoded with
      | .jarr _ => .ok ()
      | d =>
        .error (.structuralExc
          ("Field " ++ f ++ " must be a JSON array, got " ++ pyTypeName d))
    | .error m => .error (.structuralExc ("Invalid JSON in " ++ f ++ ": " ++ m))
  | v =>
    .error (.structuralExc
      ("Field " ++ f ++ " must be a JSON string array, got " ++ pyTypeName v))

/-- Model of `DataPointValidator.load_data_point` (validator.py lines
155-214).  Returns the parsed record unchanged after the eager structural
checks.  A non-object top-level document is modelled as the unexpected
(TypeError-style) failure Python's membership test produces for scalar
documents; the data-point format requires an object. -/
def load_data_point (filePath : String) (raw : RawFile) :
    Except PyExc (List (String × JValue)) :=
  match raw with
  | .badJson m => .error (.structuralExc ("Invalid JSON in " ++ filePath ++ ": " ++ m))
  | .missing => .error (.structuralExc ("File not found: " ++ filePath))
  | .unreadable m => .error (.structuralExc ("Error reading " ++ filePath ++ ": " ++ m))
  | .parsed v =>
    match v with
    | .jobj data =>
      let missingFields :=
        REQUIRED_FIELDS.filter (fun f => !data.any (fun p => p.1 == f))
      if !missingFields.isEmpty then
        .error (.structuralExc
          ("Missing required fields in " ++ filePath ++ ": "
            ++ String.intercalate ", " missingFields))
      else
        match checkTestListField data "FAIL_TO_PASS" with
        | .error e => .error e
        | .ok () =>
          match checkTestListField data "PASS_TO_PASS" with
          | .error e => .error e
          | .ok () =>
            let patchV := (alookup data "patch").getD .jnull
            if !patchV.truthy then
              .error (.structuralExc ("Patch field is empty in " ++ filePath))
            else
              match patchV with
              | .jstr s =>
                if (pyStrip s).isEmpty then
                  .error (.structuralExc ("Patch field is empty in " ++ filePath))
                else .ok data
              | _ => .error (.otherExc "AttributeError: object has no attribute strip")
    | _ => .error (.otherExc "TypeError: argument of type is not iterable")

/-- Model of `DataPointValidator.parse_test_list` (validator.py lines
235-248): `json.loads` on the stored string, decode errors re-raised as
`StructuralError`. -/
def parse_test_list (v : JValue) : Except PyExc JValue :=
  match v with
  | .jstr s =>
    match jsonLoads s with
    | .ok j => .ok j
    | .error m => .error (.structuralExc ("Invalid test list JSON: " ++ m))
  | _ => .error (.otherExc "TypeError: the JSON object must be str, bytes or bytearray")

/-- Python iteration (`for test in tests`) over a JSON-derived value. -/
def pyIter (v : JValue) : Except PyExc (List JValue) :=
  match v with
  | .jarr xs => .ok xs
  | .jstr s => .ok (s.data.map (fun c => .jstr (String.singleton c)))
  | .jobj fs => .ok (fs.map (fun p => .jstr p.1))
  | _ => .error (.otherExc "TypeError: object is not iterable")

/-- The instance-results resolution of `validate_evaluation_results`
(validator.py lines 272-283): direct instance-id key; when that is falsy and
the raw object is a dict, a present `"tests"` key wins outright, otherwise a
present `"results"` key is queried as a mapping (`.get` raises on a list). -/
def resolveInstanceResults (evaluationResults : JValue) (instanceId : JValue) :
    Except PyExc JValue :=
  match dictGetKey evaluationResults instanceId (.jobj []) with
  | .error e => .error e
  | .ok r =>
    if !r.truthy && isDict evaluationResults then
      if hasKeyJ evaluationResults "tests" then
        .ok (getKeyD evaluationResults "tests")
      else if hasKeyJ evaluationResults "results" then
        dictGetKey (getKeyD evaluationResults "results") instanceId (.jobj [])
      else .ok r
    else .ok r

/-- The passing statuses (validator.py lines 300 and 324). -/
def passingSet : List String := ["PASS", "PASSED", "TRUE", "1"]

/-- Per-test status extraction (validator.py lines 291-297): scalars are
`str(...).upper()`; dicts use `status`, then `result`, then `"UNKNOWN"`. -/
def statusOf (testResult : JValue) : String :=
  match testResult with
  | .jobj fs =>
    pyUpper (pyStr ((alookup fs "status").getD
      ((alookup fs "result").getD (.jstr "UNKNOWN"))))
  | v => pyUpper (pyStr v)

/-- Python `x[:500]` as applied to a captured `stderr`/`error` value inside
an f-string: slices strings and lists, raises `TypeError` otherwise. -/
def sliceTo500 (v : JValue) : Except PyExc String :=
  match v with
  | .jstr s => .ok (String.mk (s.data.take 500))
  | .jarr xs => .ok (pyStr (.jarr (xs.take 500)))
  | _ => .error (.otherExc "TypeError: object is not subscriptable")

/-- Diagnostic line for a failing `FAIL_TO_PASS` test (validator.py 301). -/
def f2pMsg (test status : String) : String :=
  "FAIL_TO_PASS test " ++ squote ++ test ++ squote ++ " did not pass. Status: " ++ status

/-- Diagnostic line for a failing `PASS_TO_PASS` test (validator.py 325). -/
def p2pMsg (test status : String) : String :=
  "PASS_TO_PASS test " ++ squote ++ test ++ squote ++ " failed after patch. Status: " ++ status

/-- Builds the full diagnostic for one failing test (validator.py lines
301-307 and 325-331), appending truncated `stderr` or `error` text. -/
def buildErrorMsg (fmt : String → String → String) (test : JValue)
    (status : String) (testResult : JValue) : Except PyExc String :=
  let base := fmt (pyStr test) status
  match testResult with
  | .jobj fs =>
    let stderrV := (alookup fs "stderr").getD .jnull
    if stderrV.truthy then
      match sliceTo500 stderrV with
      | .ok s => .ok (base ++ "\nError output: " ++ s)
      | .error e => .error e
    else
      let errV := (alookup fs "error").getD .jnull
      if errV.truthy then
        match sliceTo500 errV with
        | .ok s => .ok (base ++ "\nError: " ++ s)
        | .error e => .error e
      else .ok base
  | _ => .ok base

/-- One iteration of the checking loops in `validate_evaluation_results`
(validator.py lines 286-307 and 310-331): resolve the test entry, compute
its status, and append a diagnostic when it is not passing. -/
def checkOne (fmt : String → String → String) (instanceResults : JValue)
    (errs : List String) (test : JValue) : Except PyExc (List String) :=
  match dictGetKey instanceResults test (.jobj []) with
  | .error e => .error e
  | .ok testResult =>
    let status := statusOf testResult
    if passingSet.contains status then .ok errs
    else
      match buildErrorMsg fmt test status testResult with
      | .error e => .error e
      | .ok msg => .ok (errs ++ [msg])

/-- Model of `DataPointValidator.validate_evaluation_results` (validator.py
lines 250-333): parse both test lists, resolve the per-instance results and
collect one diagnostic per failing test across both lists; returns
`(len(errors) == 0, errors)`. -/
def validate_evaluation_results (dataPoint : List (String × JValue))
    (evaluationResults : JValue) : Except PyExc (Bool × List String) :=
  match pyIndex dataPoint "instance_id" with
  | .error e => .error e
  | .ok instanceId =>
    match pyIndex dataPoint "FAIL_TO_PASS" with
    | .error e => .error e
    | .ok f2pRaw =>
      match parse_test_list f2pRaw with
      | .error e => .error e
      | .ok f2pVal =>
        match pyIndex dataPoint "PASS_TO_PASS" with
        | .error e => .error e
        | .ok p2pRaw =>
          match parse_test_list p2pRaw with
          | .error e => .error e
          | .ok p2pVal =>
            match resolveInstanceResults evaluationResults instanceId with
            | .error e => .error e
            | .ok instanceResults =>
              match pyIter f2pVal with
              | .error e => .error e
              | .ok f2pTests =>
                match f2pTests.foldlM (checkOne f2pMsg instanceResults) [] with
                | .error e => .error e
                | .ok errs1 =>
                  match pyIter p2pVal with
                  | .error e => .error e
                  | .ok p2pTests =>
                    match p2pTests.foldlM (checkOne p2pMsg instanceResults) errs1 with
                    | .error e => .error e
                    | .ok errs => .ok (errs.length == 0, errs)

/-- The all-UNKNOWN test of `validate_file` (validator.py lines 582-587):
dict entries look only at `status` with default `""`; scalars at their
upper-cased rendering. -/
def isUnknownEntry (v : JValue) : Bool :=
  match v with
  | .jobj fs => pyUpper (pyStr ((alookup fs "status").getD (.jstr ""))) == "UNKNOWN"
  | v => pyUpper (pyStr v) == "UNKNOWN"

/-- Python `x.values()`: raises `AttributeError` unless `x` is a dict. -/
def pyValues (v : JValue) : Except PyExc (List JValue) :=
  match v with
  | .jobj fs => .ok (fs.map (fun p => p.2))
  | _ => .error (.otherExc "AttributeError: object has no attribute values")

/-- The run identifier `validate_file` submits under (validator.py line
412): derived from the instance id alone. -/
def runId (instanceId : String) : String := "validation-" ++ instanceId

/-- The `run_instance.log` path used in diagnostics (validator.py line 535),
with model name `"golden"`. -/
def runInstanceLogPath (logBaseDir instanceId : String) : String :=
  logBaseDir ++ "/" ++ runId instanceId ++ "/golden/" ++ instanceId
    ++ "/run_instance.log"

/-- The `ExecutionError` message for an all-UNKNOWN report (validator.py
lines 590-599). -/
def allUnknownMsg (instanceId runInstanceLog : String) : String :=
  "All tests returned UNKNOWN status for " ++ instanceId ++ ".\n"
    ++ "This usually means the Docker container failed to run or tests didn"
    ++ squote ++ "t execute.\n"
    ++ "Check the run_instance.log file for Docker/build errors:\n"
    ++ "  " ++ runInstanceLog ++ "\n\n"
    ++ "Common causes:\n"
    ++ "  - Docker image build failed (check logs above)\n"
    ++ "  - Container failed to start\n"
    ++ "  - Test execution was interrupted\n"

/-- The report-interpretation step of `validate_file` (validator.py lines
578-603): extract `"tests"`, raise `ExecutionError` when the mapping is
non-empty and every entry is UNKNOWN, otherwise wrap the mapping under the
instance id for the Outcome Checker. -/
def evalPhase (instanceId : String) (runInstanceLog : String)
    (evalReport : JValue) : Except PyExc JValue :=
  match dictGetS evalReport "tests" (.jobj []) with
  | .error e => .error e
  | .ok testResults =>
    if testResults.truthy then
      match pyValues testResults with
      | .error e => .error e
      | .ok vals =>
        if (vals.filter isUnknownEntry).length == vals.length then
          .error (.executionExc (allUnknownMsg instanceId runInstanceLog))
        else .ok (JValue.jobj [(instanceId, testResults)])
    else .ok (JValue.jobj [(instanceId, testResults)])

/-- What the external-harness phase of `validate_file` produced before log
parsing: either some exception (dataset lookup failure, missing logs, build
failure, any unexpected error — all raised inside the inner `try`), or the
raw report returned by `get_eval_report`. -/
inductive HarnessOutcome where
  | failure (excMsg : String)
  | report (evalReport : JValue)

/-- Model of the `ValidationResult` class (validator.py lines 102-129). -/
structure ValidationResult where
  instanceId : String
  filePath : String
  success : Bool
  errors : List String
  warnings : List String
  evaluationResults : Option JValue

/-- Final result construction of `validate_file` (validator.py lines
633-641): `success = len(errors) == 0`. -/
def mkResult (instanceId filePath : String) (errors : List String)
    (evaluationResults : Option JValue) : ValidationResult :=
  { instanceId := instanceId, filePath := filePath,
    success := errors.isEmpty, errors := errors, warnings := [],
    evaluationResults := evaluationResults }

/-- The wrapping of any exception escaping the inner `try` of
`validate_file` (validator.py lines 605-609) into an `ExecutionError`; the
traceback text is abstracted as a parameter. -/
def innerWrap (instanceId : String) (e : PyExc) (tb : String) : PyExc :=
  .executionExc ("Docker evaluation failed for " ++ instanceId ++ ": "
    ++ excStr e ++ "\nTraceback: " ++ tb)

/-- The outer per-file exception handlers of `validate_file` (validator.py
lines 624-631), turning each exception class into one diagnostic line. -/
def outerHandle (e : PyExc) (tb : String) : String :=
  match e with
  | .structuralExc m => "Structural error: " ++ m
  | .executionExc m => "Execution error: " ++ m
  | .otherExc m => "Unexpected error: " ++ m ++ "\nTraceback: " ++ tb

/-- Model of `DataPointValidator.validate_file` (validator.py lines
335-641): load, run the harness (abstracted as `HarnessOutcome`), interpret
the report, check outcomes, and catch every exception at the per-file
boundary.  `tb` abstracts `traceback.format_exc()`. -/
def validate_file (logBaseDir filePath tb : String) (raw : RawFile)
    (harness : HarnessOutcome) : ValidationResult :=
  match load_data_point filePath raw with
  | .error e => mkResult "unknown" filePath [outerHandle e tb] none
  | .ok dataPoint =>
    let instanceId := pyStr ((alookup dataPoint "instance_id").getD .jnull)
    match harness with
    | .failure m =>
      mkResult instanceId filePath
        [outerHandle (innerWrap instanceId (.otherExc m) tb) tb] none
    | .report evalReport =>
      match evalPhase instanceId (runInstanceLogPath logBaseDir instanceId)
          evalReport with
      | .error e =>
        mkResult instanceId filePath
          [outerHandle (innerWrap instanceId e tb) tb] none
      | .ok evaluationResults =>
        match validate_evaluation_results dataPoint evaluationResults with
        | .error e =>
          mkResult instanceId filePath [outerHandle e tb] (some evaluationResults)
        | .ok (_, validationErrors) =>
          mkResult instanceId filePath validationErrors (some evaluationResults)

/-- The run id as computed in `validate_file` from a loaded data point
(validator.py lines 353 and 412). -/
def runIdOfDataPoint (dataPoint : List (String × JValue)) : String :=
  runId (pyStr ((alookup dataPoint "instance_id").getD .jnull))

/-- Directory resolution of `validate_directory` (validator.py line 660):
the `*.json` entries of the listing, sorted by name. -/
def jsonFilesOf (listing : List String) : List String :=
  List.insertionSort (fun a b => a ≤ b)
    (listing.filter (fun f => f.endsWith ".json"))

/-- The per-file loop of `validate_directory` (validator.py lines 665-677):
append each result; after a failed result stop unless `continue_on_error`. -/
def validateLoop (continueOnError : Bool) (resultOf : String → ValidationResult) :
    List String → List ValidationResult
  | [] => []
  | f :: fs =>
    let r := resultOf f
    if !r.success && !continueOnError then [r]
    else r :: validateLoop continueOnError resultOf fs

/-- Model of `DataPointValidator.validate_directory` (validator.py lines
643-677), with the per-file validation abstracted as `resultOf`. -/
def validate_directory (continueOnError : Bool)
    (resultOf : String → ValidationResult) (listing : List String) :
    List ValidationResult :=
  validateLoop continueOnError resultOf (jsonFilesOf listing)

/-- Whether a needle occurs as a contiguous run inside a character list. -/
def subChars (needle : List Char) : List Char → Bool
  | [] => needle.isEmpty
  | c :: cs => needle.isPrefixOf (c :: cs) || subChars needle cs

/-- Whether `needle` occurs as a substring of `hay`. -/
def strContains (hay needle : String) : Bool := subChars needle.data hay.data

/-- The total value of `instance_results.get(test, {})` once the resolved
instance results are known to be a dict. -/
def dictGetTotal (irs : List (String × JValue)) (t : JValue) : JValue :=
  match t with
  | .jstr k => (alookup irs k).getD (.jobj [])
  | _ => .jobj []

/-- Whether the Outcome Checker counts a test as passing against a resolved
results dict. -/
def isPassing (irs : List (String × JValue)) (t : JValue) : Bool :=
  passingSet.contains (statusOf (dictGetTotal irs t))

/-- Discriminator: is this value a JSON array? -/
def JValue.isArr : JValue → Bool
  | .jarr _ => true
  | _ => false

/-- Discriminator: is this value a JSON string? -/
def JValue.isStr : JValue → Bool
  | .jstr _ => true
  | _ => false

/-- Total key lookup used by the spec-side resolver model: absent keys and
non-dict containers yield the empty mapping. -/
def specGet (v : JValue) (k : String) : JValue :=
  match v with
  | .jobj fs => (alookup fs k).getD (.jobj [])
  | _ => .jobj []

/-- Modelled from the spec claim wording (refinement reference, not from the
source): resolution tries the direct instance-id key; if that yields an
empty result, the `tests` key; if still empty, the `results` key as a
mapping keyed by instance id; and then the `results` key as a list of
per-instance records matched by their `instance_id` field. -/
def resolveInstanceResultsClaimed (evaluationResults : JValue)
    (instanceId : String) : JValue :=
  let direct := specGet evaluationResults instanceId
  if direct.truthy then direct
  else
    let t := specGet evaluationResults "tests"
    if t.truthy then t
    else
      let rm :=
        match specGet evaluationResults "results" with
        | .jobj rs => (alookup rs instanceId).getD (.jobj [])
        | _ => .jobj []
      if rm.truthy then rm
      else
        match specGet evaluationResults "results" with
        | .jarr recs =>
          (recs.find? (fun r =>
            match r with
            | .jobj fs =>
              match alookup fs "instance_id" with
              | some (.jstr s) => s == instanceId
              | _ => false
            | _ => false)).getD (.jobj [])
        | _ => .jobj []

/-- Modelled from the amended claim: the direct instance-id key wins when
truthy; otherwise, on a dict, a present `tests` key is used outright (even
when empty, with no further fallback), else a present `results` key is
queried as a mapping by instance id — raising `AttributeError` when its
value is not a dict; `results` is never matched as a list; a non-dict raw
object raises `AttributeError`. -/
def resolveInstanceResultsAmended (evaluationResults : JValue)
    (instanceId : JValue) : Except PyExc JValue :=
  match evaluationResults with
  | .jobj fs =>
    let direct :=
      match instanceId with
      | .jstr k => (alookup fs k).getD (.jobj [])
      | _ => .jobj []
    if direct.truthy then .ok direct
    else if fs.any (fun p => p.1 == "tests") then
      .ok ((alookup fs "tests").getD .jnull)
    else if fs.any (fun p => p.1 == "results") then
      match (alookup fs "results").getD .jnull with
      | .jobj rs =>
        .ok (match instanceId with
          | .jstr k => (alookup rs k).getD (.jobj [])
          | _ => .jobj [])
      | _ => .error (.otherExc attrErrGet)
    else .ok direct
  | _ => .error (.otherExc attrErrGet)

theorem isPrefixOf_append_self (n y : List Char) : n.isPrefixOf (n ++ y) = true := by
  induction n with
  | nil => simp [List.isPrefixOf]
  | cons c cs ih => simp [List.isPrefixOf, ih]

theorem subChars_sandwich (n x y : List Char) : subChars n (x ++ (n ++ y)) = true := by
  induction x with
  | nil =>
    cases n with
    | nil =>
      cases y with
      | nil => rfl
      | cons c cs => simp [subChars, List.isPrefixOf]
    | cons c cs => simp [subChars, isPrefixOf_append_self]
  | cons c cs ih => simp [subChars, ih]

theorem strContains_sandwich (a n b : String) :
    strContains (a ++ (n ++ b)) n = true := by
  unfold strContains
  rw [String.data_append, String.data_append]
  exact subChars_sandwich n.data a.data b.data

theorem checkOne_jobj (fmt : String → String → String)
    (irs : List (String × JValue)) (acc : List String) (t : JValue) :
    checkOne fmt (.jobj irs) acc t =
      if isPassing irs t then .ok acc
      else
        match buildErrorMsg fmt t (statusOf (dictGetTotal irs t))
            (dictGetTotal irs t) with
        | .error e => .error e
        | .ok msg => .ok (acc ++ [msg]) := by
  cases t <;> simp [checkOne, dictGetKey, dictGetTotal, isPassing]

theorem checkFold_char (fmt : String → String → String)
    (irs : List (String × JValue)) :
    ∀ (tests : List JValue) (acc errs : List String),
    List.foldlM (checkOne fmt (.jobj irs)) acc tests = .ok errs →
    errs.length = acc.length
        + (tests.filter (fun t => !isPassing irs t)).length
    ∧ (∀ x ∈ acc, x ∈ errs)
    ∧ (∀ t ∈ tests, isPassing irs t = false →
        ∀ msg, buildErrorMsg fmt t (statusOf (dictGetTotal irs t))
            (dictGetTotal irs t) = .ok msg → msg ∈ errs) := by
  intro tests
  induction tests with
  | nil =>
    intro acc errs h
    have hae : acc = errs := by
      simpa [List.foldlM, pure, Except.pure] using h
    subst hae
    simp
  | cons t ts ih =>
    intro acc errs h
    rw [List.foldlM_cons] at h
    cases hc : checkOne fmt (.jobj irs) acc t with
    | error e =>
      rw [hc] at h
      simp [Bind.bind, Except.bind] at h
    | ok acc2 =>
      rw [hc] at h
      simp only [Bind.bind, Except.bind] at h
      rw [checkOne_jobj] at hc
      by_cases hp : isPassing irs t
      · rw [if_pos hp] at hc
        injection hc with hc2
        subst hc2
        obtain ⟨hlen, hacc, hmem⟩ := ih acc errs h
        refine ⟨?_, hacc, ?_⟩
        · simpa [List.filter_cons, hp] using hlen
        · intro t2 ht2 hfail msg hmsg
          rcases List.mem_cons.mp ht2 with rfl | ht2
          · rw [hfail] at hp; exact absurd hp (by simp)
          · exact hmem t2 ht2 hfail msg hmsg
      · rw [if_neg hp] at hc
        cases hb : buildErrorMsg fmt t (statusOf (dictGetTotal irs t))
            (dictGetTotal irs t) with
        | error e =>
          rw [hb] at hc; cases hc
        | ok m =>
          rw [hb] at hc
          injection hc with hc2
          subst hc2
          obtain ⟨hlen, hacc, hmem⟩ := ih (acc ++ [m]) errs h
          have hp2 : isPassing irs t = false := by
            revert hp; cases isPassing irs t <;> simp
          refine ⟨?_, ?_, ?_⟩
          · rw [hlen]
            simp [List.filter_cons, hp2]
            omega
          · intro x hx
            exact hacc x (List.mem_append_left _ hx)
          · intro t2 ht2 hfail msg hmsg
            rcases List.mem_cons.mp ht2 with rfl | ht2
            · rw [hb] at hmsg
              injection hmsg with hm
              subst hm
              exact hacc m (by simp)
            · exact hmem t2 ht2 hfail msg hmsg

theorem checkOne_empty (fmt : String → String → String) (acc : List String)
    (t : JValue) :
    checkOne fmt (.jobj []) acc t = .ok (acc ++ [fmt (pyStr t) "UNKNOWN"]) := by
  cases t <;> rfl

theorem checkFold_empty (fmt : String → String → String) :
    ∀ (tests : List JValue) (acc : List String),
    List.foldlM (checkOne fmt (.jobj [])) acc tests
      = .ok (acc ++ tests.map (fun t => fmt (pyStr t) "UNKNOWN")) := by
  intro tests
  induction tests with
  | nil => intro acc; simp [List.foldlM, pure, Except.pure]
  | cons t ts ih =>
    intro acc
    rw [List.foldlM_cons, checkOne_empty]
    simp only [Bind.bind, Except.bind, ih, List.map_cons]
    simp

theorem validate_eval_eq (dp : List (String × JValue)) (er iidV f2pV p2pV : JValue)
    (f2p p2p : List JValue) (ir : JValue)
    (hiid : pyIndex dp "instance_id" = .ok iidV)
    (hf : pyIndex dp "FAIL_TO_PASS" = .ok f2pV)
    (hfp : parse_test_list f2pV = .ok (.jarr f2p))
    (hp : pyIndex dp "PASS_TO_PASS" = .ok p2pV)
    (hpp : parse_test_list p2pV = .ok (.jarr p2p))
    (hres : resolveInstanceResults er iidV = .ok ir) :
    validate_evaluation_results dp er =
      match f2p.foldlM (checkOne f2pMsg ir) [] with
      | .error e => .error e
      | .ok errs1 =>
        match p2p.foldlM (checkOne p2pMsg ir) errs1 with
        | .error e => .error e
        | .ok errs => .ok (errs.length == 0, errs) := by
  simp only [validate_evaluation_results, hiid, hf, hfp, hp, hpp, hres, pyIter]

theorem resolve_single_empty (iid : String) :
    resolveInstanceResults (.jobj [(iid, .jobj [])]) (.jstr iid)
      = .ok (.jobj []) := by
  unfold resolveInstanceResults
  simp only [dictGetKey, alookup, beq_self_eq_true, if_true, Option.getD_some,
    JValue.truthy, List.isEmpty_nil, Bool.not_true, Bool.not_false, isDict,
    Bool.true_and, Bool.and_true, hasKeyJ, List.any_cons, List.any_nil,
    Bool.or_false, getKeyD]
  by_cases h1 : (iid == "tests") = true
  · simp [h1]
  · simp only [h1, if_false, Bool.false_eq_true]
    by_cases h2 : (iid == "results") = true
    · simp [h2, dictGetKey, alookup]
    · simp [h1, h2]

theorem pyIndex_of_alookup (dp : List (String × JValue)) (k : String)
    (v : JValue) (h : alookup dp k = some v) : pyIndex dp k = .ok v := by
  simp [pyIndex, h]

theorem outcomeChecker_characterization
    (dp : List (String × JValue)) (er iidV f2pV p2pV : JValue)
    (f2p p2p : List JValue) (irs : List (String × JValue))
    (allPassed : Bool) (errs : List String)
    (hiid : pyIndex dp "instance_id" = .ok iidV)
    (hf : pyIndex dp "FAIL_TO_PASS" = .ok f2pV)
    (hfp : parse_test_list f2pV = .ok (.jarr f2p))
    (hp : pyIndex dp "PASS_TO_PASS" = .ok p2pV)
    (hpp : parse_test_list p2pV = .ok (.jarr p2p))
    (hres : resolveInstanceResults er iidV = .ok (.jobj irs))
    (hok : validate_evaluation_results dp er = .ok (allPassed, errs)) :
    errs.length = (f2p.filter (fun t => !isPassing irs t)).length
        + (p2p.filter (fun t => !isPassing irs t)).length
    ∧ (allPassed = true ↔ errs = [])
    ∧ (∀ t ∈ f2p, isPassing irs t = false →
        ∀ msg, buildErrorMsg f2pMsg t (statusOf (dictGetTotal irs t))
          (dictGetTotal irs t) = .ok msg → msg ∈ errs)
    ∧ (∀ t ∈ p2p, isPassing irs t = false →
        ∀ msg, buildErrorMsg p2pMsg t (statusOf (dictGetTotal irs t))
          (dictGetTotal irs t) = .ok msg → msg ∈ errs) := by
  have heq := validate_eval_eq dp er iidV f2pV p2pV f2p p2p (.jobj irs)
    hiid hf hfp hp hpp hres
  rw [heq] at hok
  cases h1 : f2p.foldlM (checkOne f2pMsg (.jobj irs)) [] with
  | error e => rw [h1] at hok; simp at hok
  | ok errs1 =>
    rw [h1] at hok
    dsimp only at hok
    cases h2 : p2p.foldlM (checkOne p2pMsg (.jobj irs)) errs1 with
    | error e => rw [h2] at hok; simp at hok
    | ok errs2 =>
      rw [h2] at hok
      dsimp only at hok
      injection hok with hok2
      injection hok2 with hb he
      subst he
      obtain ⟨hl1, _, hm1⟩ := checkFold_char f2pMsg irs f2p [] errs1 h1
      obtain ⟨hl2, hacc2, hm2⟩ := checkFold_char p2pMsg irs p2p errs1 errs2 h2
      refine ⟨?_, ?_, ?_, ?_⟩
      · rw [hl2, hl1]; simp
      · rw [← hb]
        simp [List.length_eq_zero]
      · intro t ht hfail msg hmsg
        exact hacc2 msg (hm1 t ht hfail msg hmsg)
      · intro t ht hfail msg hmsg
        exact hm2 t ht hfail msg hmsg

/-- C1: for every data point and every normalized report, the Outcome
Checker examines every identifier in `fail_to_pass` and in `pass_to_pass`
without short-circuiting: the error list holds exactly one diagnostic per
test whose resolved status is outside the passing set (each failing test's
diagnostic is a member), and `all_passed` is true iff the error list is
empty. -/
theorem c1_outcome_checker_exhaustive
    (dp : List (String × JValue)) (er iidV f2pV p2pV : JValue)
    (f2p p2p : List JValue) (irs : List (String × JValue))
    (allPassed : Bool) (errs : List String)
    (hiid : pyIndex dp "instance_id" = .ok iidV)
    (hf : pyIndex dp "FAIL_TO_PASS" = .ok f2pV)
    (hfp : parse_test_list f2pV = .ok (.jarr f2p))
    (hp : pyIndex dp "PASS_TO_PASS" = .ok p2pV)
    (hpp : parse_test_list p2pV = .ok (.jarr p2p))
    (hres : resolveInstanceResults er iidV = .ok (.jobj irs))
    (hok : validate_evaluation_results dp er = .ok (allPassed, errs)) :
    errs.length = (f2p.filter (fun t => !isPassing irs t)).length
        + (p2p.filter (fun t => !isPassing irs t)).length
    ∧ (allPassed = true ↔ errs = [])
    ∧ (∀ t ∈ f2p, isPassing irs t = false →
        ∀ msg, buildErrorMsg f2pMsg t (statusOf (dictGetTotal irs t))
          (dictGetTotal irs t) = .ok msg → msg ∈ errs)
    ∧ (∀ t ∈ p2p, isPassing irs t = false →
        ∀ msg, buildErrorMsg p2pMsg t (statusOf (dictGetTotal irs t))
          (dictGetTotal irs t) = .ok msg → msg ∈ errs) :=
  outcomeChecker_characterization dp er iidV f2pV p2pV f2p p2p irs
    allPassed errs hiid hf hfp hp hpp hres hok

/-- Witness for C1: a report with two failing `FAIL_TO_PASS` tests and one
failing `PASS_TO_PASS` test yields exactly three diagnostics and
`all_passed = false`. -/
theorem c1_witness :
    validate_evaluation_results
        [("instance_id", .jstr "i"), ("FAIL_TO_PASS", .jstr "[\"a\", \"b\"]"),
          ("PASS_TO_PASS", .jstr "[\"c\"]")]
        (.jobj [("i", .jobj [("a", .jstr "FAIL"), ("b", .jstr "ERROR"),
          ("c", .jstr "FAIL")])])
      = .ok (false, [f2pMsg "a" "FAIL", f2pMsg "b" "ERROR", p2pMsg "c" "FAIL"])
    ∧ (3 : Nat)
      = ([JValue.jstr "a", JValue.jstr "b"].filter (fun t =>
          !isPassing [("a", JValue.jstr "FAIL"), ("b", JValue.jstr "ERROR"),
            ("c", JValue.jstr "FAIL")] t)).length
        + ([JValue.jstr "c"].filter (fun t =>
          !isPassing [("a", JValue.jstr "FAIL"), ("b", JValue.jstr "ERROR"),
            ("c", JValue.jstr "FAIL")] t)).length := by
  refine ⟨rfl, ?_⟩
  have h := c1_outcome_checker_exhaustive
    [("instance_id", .jstr "i"), ("FAIL_TO_PASS", .jstr "[\"a\", \"b\"]"),
      ("PASS_TO_PASS", .jstr "[\"c\"]")]
    (.jobj [("i", .jobj [("a", .jstr "FAIL"), ("b", .jstr "ERROR"),
      ("c", .jstr "FAIL")])])
    (.jstr "i") (.jstr "[\"a\", \"b\"]") (.jstr "[\"c\"]")
    [JValue.jstr "a", JValue.jstr "b"] [JValue.jstr "c"]
    [("a", JValue.jstr "FAIL"), ("b", JValue.jstr "ERROR"),
      ("c", JValue.jstr "FAIL")]
    false [f2pMsg "a" "FAIL", f2pMsg "b" "ERROR", p2pMsg "c" "FAIL"]
    rfl rfl rfl rfl rfl rfl rfl
  exact h.1

/-- C3: a test listed in `fail_to_pass` or in `pass_to_pass` that is absent
from the resolved per-test results normalizes to status UNKNOWN — not a
passing status — and the Outcome Checker records its diagnostic in the
error list (the `fail_to_pass` message when listed there, the
`pass_to_pass` message when listed there) rather than treating it as a
success. -/
theorem c3_absent_test_unknown
    (dp : List (String × JValue)) (er iidV f2pV p2pV : JValue)
    (f2p p2p : List JValue) (irs : List (String × JValue))
    (allPassed : Bool) (errs : List String) (t : String)
    (hiid : pyIndex dp "instance_id" = .ok iidV)
    (hf : pyIndex dp "FAIL_TO_PASS" = .ok f2pV)
    (hfp : parse_test_list f2pV = .ok (.jarr f2p))
    (hp : pyIndex dp "PASS_TO_PASS" = .ok p2pV)
    (hpp : parse_test_list p2pV = .ok (.jarr p2p))
    (hres : resolveInstanceResults er iidV = .ok (.jobj irs))
    (hok : validate_evaluation_results dp er = .ok (allPassed, errs))
    (habs : alookup irs t = none) :
    statusOf (dictGetTotal irs (.jstr t)) = "UNKNOWN"
    ∧ isPassing irs (.jstr t) = false
    ∧ (JValue.jstr t ∈ f2p → f2pMsg t "UNKNOWN" ∈ errs)
    ∧ (JValue.jstr t ∈ p2p → p2pMsg t "UNKNOWN" ∈ errs) := by
  have hd : dictGetTotal irs (.jstr t) = .jobj [] := by
    simp [dictGetTotal, habs]
  have hst : statusOf (dictGetTotal irs (.jstr t)) = "UNKNOWN" := by
    rw [hd]; rfl
  have hpass : isPassing irs (.jstr t) = false := by
    unfold isPassing; rw [hst]; rfl
  obtain ⟨_, _, hmemF, hmemP⟩ := outcomeChecker_characterization dp er iidV
    f2pV p2pV f2p p2p irs allPassed errs hiid hf hfp hp hpp hres hok
  refine ⟨hst, hpass, ?_, ?_⟩
  · intro hmem
    refine hmemF (.jstr t) hmem hpass (f2pMsg t "UNKNOWN") ?_
    rw [hd]
    rfl
  · intro hmem
    refine hmemP (.jstr t) hmem hpass (p2pMsg t "UNKNOWN") ?_
    rw [hd]
    rfl

/-- Witness for C3: one test missing from the report in each of the two
expected lists; both are reported with status UNKNOWN, each with its own
list's diagnostic. -/
theorem c3_witness :
    statusOf (dictGetTotal [("other", JValue.jstr "PASS")] (.jstr "m1"))
      = "UNKNOWN"
    ∧ isPassing [("other", JValue.jstr "PASS")] (.jstr "m1") = false
    ∧ statusOf (dictGetTotal [("other", JValue.jstr "PASS")] (.jstr "m2"))
      = "UNKNOWN"
    ∧ isPassing [("other", JValue.jstr "PASS")] (.jstr "m2") = false
    ∧ f2pMsg "m1" "UNKNOWN"
      ∈ [f2pMsg "m1" "UNKNOWN", p2pMsg "m2" "UNKNOWN"]
    ∧ p2pMsg "m2" "UNKNOWN"
      ∈ [f2pMsg "m1" "UNKNOWN", p2pMsg "m2" "UNKNOWN"] := by
  have h1 := c3_absent_test_unknown
    [("instance_id", .jstr "i"), ("FAIL_TO_PASS", .jstr "[\"m1\"]"),
      ("PASS_TO_PASS", .jstr "[\"m2\"]")]
    (.jobj [("i", .jobj [("other", .jstr "PASS")])])
    (.jstr "i") (.jstr "[\"m1\"]") (.jstr "[\"m2\"]")
    [JValue.jstr "m1"] [JValue.jstr "m2"] [("other", JValue.jstr "PASS")]
    false [f2pMsg "m1" "UNKNOWN", p2pMsg "m2" "UNKNOWN"] "m1"
    rfl rfl rfl rfl rfl rfl rfl rfl
  have h2 := c3_absent_test_unknown
    [("instance_id", .jstr "i"), ("FAIL_TO_PASS", .jstr "[\"m1\"]"),
      ("PASS_TO_PASS", .jstr "[\"m2\"]")]
    (.jobj [("i", .jobj [("other", .jstr "PASS")])])
    (.jstr "i") (.jstr "[\"m1\"]") (.jstr "[\"m2\"]")
    [JValue.jstr "m1"] [JValue.jstr "m2"] [("other", JValue.jstr "PASS")]
    false [f2pMsg "m1" "UNKNOWN", p2pMsg "m2" "UNKNOWN"] "m2"
    rfl rfl rfl rfl rfl rfl rfl rfl
  exact ⟨h1.1, h1.2.1, h2.1, h2.2.1,
    h1.2.2.1 (by simp), h2.2.2.2 (by simp)⟩

/-- Counterexample for C2: with raw object
`{tests: {}, results: {i: {t1: PASS}}}` the code keeps the empty `tests`
value and never falls through to `results`, while the claimed order reaches
`{t1: PASS}`; and with `results` holding a list of per-instance records the
code raises `AttributeError` instead of matching by instance-id field. -/
theorem c2_counterexample :
    resolveInstanceResults
        (.jobj [("tests", .jobj []),
          ("results", .jobj [("i", .jobj [("t1", .jstr "PASS")])])])
        (.jstr "i") = .ok (.jobj [])
    ∧ resolveInstanceResultsClaimed
        (.jobj [("tests", .jobj []),
          ("results", .jobj [("i", .jobj [("t1", .jstr "PASS")])])]) "i"
      = .jobj [("t1", .jstr "PASS")]
    ∧ (JValue.jobj []) ≠ .jobj [("t1", .jstr "PASS")]
    ∧ resolveInstanceResults
        (.jobj [("results", .jarr [.jobj [("instance_id", .jstr "i")]])])
        (.jstr "i") = .error (.otherExc attrErrGet)
    ∧ resolveInstanceResultsClaimed
        (.jobj [("results", .jarr [.jobj [("instance_id", .jstr "i")]])]) "i"
      = .jobj [("instance_id", .jstr "i")] := by
  refine ⟨rfl, rfl, ?_, rfl, rfl⟩
  intro h
  injection h with h2
  simp at h2

/-- C2 as amended: the code resolves by direct instance-id key; when that is
falsy, a present `tests` key is used outright with no further fallback,
otherwise a present `results` key is queried as a mapping by instance id
(raising `AttributeError` when its value is not a dict); `results` is never
matched as a list of records. -/
theorem c2_amended_resolution_order (er iid : JValue) :
    resolveInstanceResults er iid = resolveInstanceResultsAmended er iid := by
  cases er with
  | jobj fs =>
    cases iid <;>
      simp only [resolveInstanceResults, resolveInstanceResultsAmended,
        dictGetKey, isDict, hasKeyJ, getKeyD, Bool.and_true] <;>
      split_ifs <;> simp_all
  | jnull => rfl
  | jbool b => rfl
  | jnum n => rfl
  | jstr s => rfl
  | jarr xs => rfl

/-- Counterexample for C4: in an empty report every test entry (of which
there are none) vacuously resolves to UNKNOWN, yet the code does not raise
the `ExecutionError` — the empty mapping is wrapped and handed on. -/
theorem c4_counterexample :
    pyValues (JValue.jobj []) = .ok []
    ∧ List.all [] isUnknownEntry = true
    ∧ evalPhase "i" "lg" (.jobj [("tests", .jobj [])])
      = .ok (.jobj [("i", .jobj [])]) :=
  ⟨rfl, rfl, rfl⟩

/-- C4 as amended: if the normalized report is non-empty and every test
entry resolves to UNKNOWN, the orchestrator raises an `ExecutionError`
before the Outcome Checker runs, and the final result carries that single
execution diagnostic with no evaluation results attached. -/
theorem c4_amended_all_unknown_execution_error
    (lgBase filePath tb iid : String) (raw : RawFile)
    (dp : List (String × JValue)) (evalReport : JValue)
    (tr : List (String × JValue))
    (hload : load_data_point filePath raw = .ok dp)
    (hiid : alookup dp "instance_id" = some (.jstr iid))
    (htests : dictGetS evalReport "tests" (.jobj []) = .ok (.jobj tr))
    (hne : tr ≠ [])
    (hall : (tr.map (fun p => p.2)).all isUnknownEntry = true) :
    evalPhase iid (runInstanceLogPath lgBase iid) evalReport
      = .error (.executionExc
          (allUnknownMsg iid (runInstanceLogPath lgBase iid)))
    ∧ (validate_file lgBase filePath tb raw (.report evalReport)).errors
      = [outerHandle (innerWrap iid (.executionExc
          (allUnknownMsg iid (runInstanceLogPath lgBase iid))) tb) tb]
    ∧ (validate_file lgBase filePath tb raw
        (.report evalReport)).evaluationResults = none := by
  have h1 : evalPhase iid (runInstanceLogPath lgBase iid) evalReport
      = .error (.executionExc
          (allUnknownMsg iid (runInstanceLogPath lgBase iid))) := by
    unfold evalPhase
    rw [htests]
    cases tr with
    | nil => exact absurd rfl hne
    | cons hd tl =>
      have hfilter :
          ((hd :: tl).map (fun p => p.2)).filter isUnknownEntry
            = (hd :: tl).map (fun p => p.2) :=
        List.filter_eq_self.mpr (by
          intro a ha
          exact List.all_eq_true.mp hall a ha)
      simp only [List.map_cons] at hfilter
      simp [JValue.truthy, pyValues, hfilter]
  refine ⟨h1, ?_, ?_⟩ <;>
  · unfold validate_file
    rw [hload]
    dsimp only
    rw [hiid]
    simp only [Option.getD_some, pyStr]
    rw [h1]
    rfl

/-- Witness for C4 as amended: a one-entry all-UNKNOWN report is classified
as an execution failure. -/
theorem c4_witness :
    evalPhase "i" (runInstanceLogPath "l" "i")
        (.jobj [("tests", .jobj [("t1", .jstr "unknown")])])
      = .error (.executionExc (allUnknownMsg "i" (runInstanceLogPath "l" "i")))
    ∧ (validate_file "l" "/p.json" "tb"
        (.parsed (.jobj [("instance_id", .jstr "i"), ("repo", .jstr "r"),
          ("base_commit", .jstr "b"), ("patch", .jstr "d"),
          ("FAIL_TO_PASS", .jstr "[\"t1\"]"), ("PASS_TO_PASS", .jstr "[]")]))
        (.report (.jobj [("tests", .jobj [("t1", .jstr "unknown")])]))).errors
      = [outerHandle (innerWrap "i" (.executionExc
          (allUnknownMsg "i" (runInstanceLogPath "l" "i"))) "tb") "tb"]
    ∧ (validate_file "l" "/p.json" "tb"
        (.parsed (.jobj [("instance_id", .jstr "i"), ("repo", .jstr "r"),
          ("base_commit", .jstr "b"), ("patch", .jstr "d"),
          ("FAIL_TO_PASS", .jstr "[\"t1\"]"), ("PASS_TO_PASS", .jstr "[]")]))
        (.report (.jobj [("tests",
          .jobj [("t1", .jstr "unknown")])]))).evaluationResults = none :=
  c4_amended_all_unknown_execution_error "l" "/p.json" "tb" "i"
    (.parsed (.jobj [("instance_id", .jstr "i"), ("repo", .jstr "r"),
      ("base_commit", .jstr "b"), ("patch", .jstr "d"),
      ("FAIL_TO_PASS", .jstr "[\"t1\"]"), ("PASS_TO_PASS", .jstr "[]")]))
    [("instance_id", .jstr "i"), ("repo", .jstr "r"),
      ("base_commit", .jstr "b"), ("patch", .jstr "d"),
      ("FAIL_TO_PASS", .jstr "[\"t1\"]"), ("PASS_TO_PASS", .jstr "[]")]
    (.jobj [("tests", .jobj [("t1", .jstr "unknown")])])
    [("t1", .jstr "unknown")]
    rfl rfl rfl (by simp) rfl

theorem alookup_isSome_of_any (data : List (String × JValue)) (f : String)
    (h : data.any (fun p => p.1 == f) = true) :
    (alookup data f).isSome = true := by
  induction data with
  | nil => simp at h
  | cons kv rest ih =>
    obtain ⟨k, v⟩ := kv
    by_cases hk : (k == f) = true
    · simp [alookup, hk]
    · simp only [List.any_cons, hk, Bool.false_or] at h
      simp [alookup, hk, ih h]

theorem checkTestListField_ok (data : List (String × JValue)) (f : String)
    (h : checkTestListField data f = .ok ()) :
    ∃ s xs, alookup data f = some (.jstr s)
      ∧ jsonLoads s = .ok (.jarr xs) := by
  unfold checkTestListField at h
  cases halo : alookup data f with
  | none => rw [halo] at h; simp at h
  | some v =>
    rw [halo] at h
    cases v with
    | jstr s =>
      simp only [Option.getD_some] at h
      cases hj : jsonLoads s with
      | error e => rw [hj] at h; simp at h
      | ok decoded =>
        rw [hj] at h
        cases decoded with
        | jarr xs => exact ⟨s, xs, rfl, hj⟩
        | jnull => simp at h
        | jbool b => simp at h
        | jnum n => simp at h
        | jstr s2 => simp at h
        | jobj fs2 => simp at h
    | jnull => simp at h
    | jbool b => simp at h
    | jnum n => simp at h
    | jarr xs => simp at h
    | jobj fs2 => simp at h

/-- Counterexample for C5: a record whose `FAIL_TO_PASS` is the string
`"[1]"` is accepted by `load`, which returns the field still as a
JSON-encoded string — not as a decoded array — and its decoded elements are
not strings. -/
theorem c5_counterexample :
    load_data_point "/c.json"
        (.parsed (.jobj [("instance_id", .jstr "i"), ("repo", .jstr "r"),
          ("base_commit", .jstr "b"), ("patch", .jstr "d"),
          ("FAIL_TO_PASS", .jstr "[1]"), ("PASS_TO_PASS", .jstr "[]")]))
      = .ok [("instance_id", .jstr "i"), ("repo", .jstr "r"),
          ("base_commit", .jstr "b"), ("patch", .jstr "d"),
          ("FAIL_TO_PASS", .jstr "[1]"), ("PASS_TO_PASS", .jstr "[]")]
    ∧ alookup [("instance_id", .jstr "i"), ("repo", .jstr "r"),
          ("base_commit", .jstr "b"), ("patch", .jstr "d"),
          ("FAIL_TO_PASS", .jstr "[1]"), ("PASS_TO_PASS", .jstr "[]")]
        "FAIL_TO_PASS" = some (.jstr "[1]")
    ∧ (JValue.jstr "[1]").isArr = false
    ∧ jsonLoads "[1]" = .ok (.jarr [.jnum 1])
    ∧ (JValue.jnum 1).isStr = false :=
  ⟨rfl, rfl, rfl, rfl, rfl⟩

/-- C5 as amended: every record accepted by `load` has all six required
fields present, both test-list fields as JSON-encoded strings verified to
decode to arrays (elements unchecked, and the fields are returned still
encoded), and a string patch that is non-empty after trimming. -/
theorem c5_amended_load_invariants (filePath : String) (raw : RawFile)
    (fields : List (String × JValue))
    (hok : load_data_point filePath raw = .ok fields) :
    (∀ f ∈ REQUIRED_FIELDS, (alookup fields f).isSome = true)
    ∧ (∀ f ∈ (["FAIL_TO_PASS", "PASS_TO_PASS"] : List String),
        ∃ s xs, alookup fields f = some (.jstr s)
          ∧ jsonLoads s = .ok (.jarr xs))
    ∧ (∃ p, alookup fields "patch" = some (.jstr p)
        ∧ (pyStrip p).isEmpty = false) := by
  unfold load_data_point at hok
  cases raw with
  | missing => simp at hok
  | unreadable m => simp at hok
  | badJson m => simp at hok
  | parsed v =>
    cases v with
    | jobj data =>
      dsimp only at hok
      by_cases hmiss :
          (REQUIRED_FIELDS.filter
            (fun f => !data.any (fun p => p.1 == f))).isEmpty = true
      · rw [hmiss] at hok
        simp only [Bool.not_true, Bool.false_eq_true, if_false] at hok
        cases hc1 : checkTestListField data "FAIL_TO_PASS" with
        | error e => rw [hc1] at hok; simp at hok
        | ok u =>
          obtain ⟨⟩ := u
          rw [hc1] at hok
          cases hc2 : checkTestListField data "PASS_TO_PASS" with
          | error e => rw [hc2] at hok; simp at hok
          | ok u =>
            obtain ⟨⟩ := u
            rw [hc2] at hok
            dsimp only at hok
            cases halo : alookup data "patch" with
            | none => rw [halo] at hok; split at hok <;> simp at hok
            | some pv =>
              rw [halo] at hok
              simp only [Option.getD_some] at hok
              cases pv with
              | jstr p =>
                split at hok
                · simp at hok
                · dsimp only at hok
                  split at hok
                  · simp at hok
                  · rename_i hstrip
                    injection hok with hfields
                    subst hfields
                    have hstrip2 : (pyStrip p).isEmpty = false := by
                      revert hstrip
                      cases (pyStrip p).isEmpty <;> simp
                    refine ⟨?_, ?_, p, halo, hstrip2⟩
                    · intro f hf
                      have hnotin :
                          f ∉ REQUIRED_FIELDS.filter
                            (fun f => !data.any (fun p => p.1 == f)) := by
                        rw [List.isEmpty_iff] at hmiss
                        rw [hmiss]
                        simp
                      have hany : data.any (fun p => p.1 == f) = true := by
                        by_contra hno
                        exact hnotin (List.mem_filter.mpr ⟨hf, by
                          revert hno
                          cases data.any (fun p => p.1 == f) <;> simp⟩)
                      exact alookup_isSome_of_any data f hany
                    · intro f hf
                      rcases List.mem_cons.mp hf with rfl | hf2
                      · exact checkTestListField_ok data "FAIL_TO_PASS" hc1
                      · rcases List.mem_cons.mp hf2 with rfl | hf3
                        · exact checkTestListField_ok data "PASS_TO_PASS" hc2
                        · simp at hf3
              | jnull => split at hok <;> simp at hok
              | jbool b => split at hok <;> simp at hok
              | jnum n => split at hok <;> simp at hok
              | jarr xs => split at hok <;> simp at hok
              | jobj fs2 => split at hok <;> simp at hok
      · have hmiss2 :
            (REQUIRED_FIELDS.filter
              (fun f => !data.any (fun p => p.1 == f))).isEmpty = false := by
          revert hmiss
          cases (REQUIRED_FIELDS.filter
            (fun f => !data.any (fun p => p.1 == f))).isEmpty <;> simp
        rw [hmiss2] at hok
        simp at hok
    | jnull => simp at hok
    | jbool b => simp at hok
    | jnum n => simp at hok
    | jstr s => simp at hok
    | jarr xs => simp at hok

/-- Witness for C5 as amended: a well-formed record is accepted with its
test lists verified and its patch non-empty after trimming. -/
theorem c5_witness :
    (alookup [("instance_id", JValue.jstr "i"), ("repo", JValue.jstr "r"),
        ("base_commit", JValue.jstr "b"), ("patch", JValue.jstr "d"),
        ("FAIL_TO_PASS", JValue.jstr "[\"t1\"]"),
        ("PASS_TO_PASS", JValue.jstr "[]")] "FAIL_TO_PASS").isSome = true
    ∧ (pyStrip "d").isEmpty = false := by
  have h := c5_amended_load_invariants "/w.json"
    (.parsed (.jobj [("instance_id", .jstr "i"), ("repo", .jstr "r"),
      ("base_commit", .jstr "b"), ("patch", .jstr "d"),
      ("FAIL_TO_PASS", .jstr "[\"t1\"]"), ("PASS_TO_PASS", .jstr "[]")]))
    [("instance_id", .jstr "i"), ("repo", .jstr "r"),
      ("base_commit", .jstr "b"), ("patch", .jstr "d"),
      ("FAIL_TO_PASS", .jstr "[\"t1\"]"), ("PASS_TO_PASS", .jstr "[]")]
    rfl
  refine ⟨h.1 "FAIL_TO_PASS" (by simp [REQUIRED_FIELDS]), ?_⟩
  obtain ⟨p, hp1, hp2⟩ := h.2.2
  have hcomp : alookup [("instance_id", JValue.jstr "i"), ("repo", JValue.jstr "r"),
      ("base_commit", JValue.jstr "b"), ("patch", JValue.jstr "d"),
      ("FAIL_TO_PASS", JValue.jstr "[\"t1\"]"),
      ("PASS_TO_PASS", JValue.jstr "[]")] "patch" = some (JValue.jstr "d") := rfl
  rw [hcomp] at hp1
  injection hp1 with h3
  injection h3 with h4
  rw [← h4] at hp2
  exact hp2

theorem validate_file_eq_mkResult (lgBase filePath tb : String)
    (raw : RawFile) (harness : HarnessOutcome) :
    ∃ iid errs er, validate_file lgBase filePath tb raw harness
      = mkResult iid filePath errs er := by
  unfold validate_file
  split
  · exact ⟨_, _, _, rfl⟩
  · dsimp only
    split
    · exact ⟨_, _, _, rfl⟩
    · split
      · exact ⟨_, _, _, rfl⟩
      · split
        · exact ⟨_, _, _, rfl⟩
        · exact ⟨_, _, _, rfl⟩

/-- C6: `validate_file` always returns a `ValidationResult`; every failing
step — structural, execution, or unexpected — is caught at the per-file
boundary and recorded as a diagnostic in the error list, and the result's
success flag is true iff the error list is empty. -/
theorem c6_per_file_boundary (lgBase filePath tb : String) (raw : RawFile)
    (harness : HarnessOutcome) :
    ((validate_file lgBase filePath tb raw harness).success = true
      ↔ (validate_file lgBase filePath tb raw harness).errors = [])
    ∧ (∀ m, load_data_point filePath raw = .error (.structuralExc m) →
        (validate_file lgBase filePath tb raw harness).errors
          = ["Structural error: " ++ m])
    ∧ (∀ m, load_data_point filePath raw = .error (.otherExc m) →
        (validate_file lgBase filePath tb raw harness).errors
          = ["Unexpected error: " ++ m ++ "\nTraceback: " ++ tb])
    ∧ (∀ dp m, load_data_point filePath raw = .ok dp →
        harness = .failure m →
        (validate_file lgBase filePath tb raw harness).errors
          = ["Execution error: "
              ++ ("Docker evaluation failed for "
                ++ pyStr ((alookup dp "instance_id").getD .jnull) ++ ": " ++ m
                ++ "\nTraceback: " ++ tb)]) := by
  refine ⟨?_, ?_, ?_, ?_⟩
  · obtain ⟨iid, errs, er, heq⟩ :=
      validate_file_eq_mkResult lgBase filePath tb raw harness
    rw [heq]
    simp [mkResult, List.isEmpty_iff]
  · intro m hm
    unfold validate_file
    rw [hm]
    rfl
  · intro m hm
    unfold validate_file
    rw [hm]
    rfl
  · intro dp m hdp hh
    subst hh
    unfold validate_file
    rw [hdp]
    rfl

/-- Witness for C6: a missing file yields a failed result carrying the
structural diagnostic. -/
theorem c6_witness :
    (validate_file "l" "/p.json" "tb" RawFile.missing
        (.report .jnull)).errors
      = ["Structural error: File not found: /p.json"] :=
  (c6_per_file_boundary "l" "/p.json" "tb" RawFile.missing
    (.report .jnull)).2.1 "File not found: /p.json" rfl

theorem validateLoop_continue (resultOf : String → ValidationResult) :
    ∀ files, validateLoop true resultOf files = files.map resultOf := by
  intro files
  induction files with
  | nil => rfl
  | cons f fs ih => simp [validateLoop, ih]

theorem validateLoop_stop (resultOf : String → ValidationResult) :
    ∀ files, validateLoop false resultOf files
      = (files.takeWhile (fun f => (resultOf f).success)).map resultOf
        ++ ((files.dropWhile (fun f => (resultOf f).success)).take 1).map
            resultOf := by
  intro files
  induction files with
  | nil => rfl
  | cons f fs ih =>
    by_cases hs : (resultOf f).success = true
    · simp [validateLoop, hs, List.takeWhile_cons, List.dropWhile_cons, ih]
    · have hs2 : (resultOf f).success = false := by
        revert hs; cases (resultOf f).success <;> simp
      simp [validateLoop, hs2, List.takeWhile_cons, List.dropWhile_cons]

/-- C7: the Batch Driver resolves a directory listing to its `.json` files
sorted by name and runs the per-file validation in that order; with
`continue_on_error` true it processes the whole sequence, one result per
file in order; with it false it stops right after the first failed result —
the output is the results of the passing run of files followed by the first
failing file's result, and no later file contributes a result. -/
theorem c7_batch_driver (resultOf : String → ValidationResult)
    (listing : List String) :
    List.Sorted (fun a b => a ≤ b) (jsonFilesOf listing)
    ∧ (∀ f, f ∈ jsonFilesOf listing
        ↔ f ∈ listing ∧ f.endsWith ".json" = true)
    ∧ validate_directory true resultOf listing
      = (jsonFilesOf listing).map resultOf
    ∧ validate_directory false resultOf listing
      = ((jsonFilesOf listing).takeWhile
          (fun f => (resultOf f).success)).map resultOf
        ++ (((jsonFilesOf listing).dropWhile
          (fun f => (resultOf f).success)).take 1).map resultOf := by
  refine ⟨?_, ?_, ?_, ?_⟩
  · exact List.sorted_insertionSort _ _
  · intro f
    unfold jsonFilesOf
    rw [(List.perm_insertionSort _ _).mem_iff]
    exact List.mem_filter
  · exact validateLoop_continue resultOf (jsonFilesOf listing)
  · exact validateLoop_stop resultOf (jsonFilesOf listing)

/-- Counterexample for C8: two distinct validation runs — two different
files whose records share an instance id — receive the same run identifier,
so the identifier is not fresh per run. -/
theorem c8_counterexample :
    load_data_point "/a.json"
        (.parsed (.jobj [("instance_id", .jstr "i"), ("repo", .jstr "r1"),
          ("base_commit", .jstr "b"), ("patch", .jstr "d"),
          ("FAIL_TO_PASS", .jstr "[]"), ("PASS_TO_PASS", .jstr "[]")]))
      = .ok [("instance_id", .jstr "i"), ("repo", .jstr "r1"),
          ("base_commit", .jstr "b"), ("patch", .jstr "d"),
          ("FAIL_TO_PASS", .jstr "[]"), ("PASS_TO_PASS", .jstr "[]")]
    ∧ load_data_point "/b.json"
        (.parsed (.jobj [("instance_id", .jstr "i"), ("repo", .jstr "r2"),
          ("base_commit", .jstr "b"), ("patch", .jstr "d"),
          ("FAIL_TO_PASS", .jstr "[]"), ("PASS_TO_PASS", .jstr "[]")]))
      = .ok [("instance_id", .jstr "i"), ("repo", .jstr "r2"),
          ("base_commit", .jstr "b"), ("patch", .jstr "d"),
          ("FAIL_TO_PASS", .jstr "[]"), ("PASS_TO_PASS", .jstr "[]")]
    ∧ runIdOfDataPoint [("instance_id", .jstr "i"), ("repo", .jstr "r1"),
          ("base_commit", .jstr "b"), ("patch", .jstr "d"),
          ("FAIL_TO_PASS", .jstr "[]"), ("PASS_TO_PASS", .jstr "[]")]
      = "validation-i"
    ∧ runIdOfDataPoint [("instance_id", .jstr "i"), ("repo", .jstr "r2"),
          ("base_commit", .jstr "b"), ("patch", .jstr "d"),
          ("FAIL_TO_PASS", .jstr "[]"), ("PASS_TO_PASS", .jstr "[]")]
      = "validation-i"
    ∧ ("/a.json" : String) ≠ "/b.json" :=
  ⟨rfl, rfl, rfl, rfl, by decide⟩

/-- C8 as amended: the run identifier is the deterministic string
`validation-` followed by the instance id, so two runs receive distinct
identifiers exactly when their instance ids differ; repeated or concurrent
runs on the same instance id share the identifier (and hence log paths). -/
theorem c8_amended_run_id_deterministic (i1 i2 : String) :
    runId i1 = runId i2 ↔ i1 = i2 := by
  constructor
  · intro h
    unfold runId at h
    have hd := congrArg String.data h
    rw [String.data_append, String.data_append] at hd
    exact String.ext (List.append_cancel_left hd)
  · intro h
    rw [h]

theorem strContains_mid2 (x y z n : String) :
    strContains (x ++ n ++ y ++ z) n = true := by
  unfold strContains
  simp only [String.data_append, List.append_assoc]
  exact subChars_sandwich n.data x.data (y.data ++ z.data)

theorem strContains_end (x n : String) : strContains (x ++ n) n = true := by
  unfold strContains
  simp only [String.data_append]
  have h := subChars_sandwich n.data x.data []
  simpa using h

theorem checkTestListField_error_names_field
    (data : List (String × JValue)) (f : String) (m : String)
    (h : checkTestListField data f = .error (.structuralExc m)) :
    strContains m f = true := by
  unfold checkTestListField at h
  cases hv : (alookup data f).getD .jnull with
  | jstr s =>
    rw [hv] at h
    dsimp only at h
    cases hj : jsonLoads s with
    | error e =>
      rw [hj] at h
      dsimp only at h
      injection h with h2
      injection h2 with h3
      rw [← h3]
      exact strContains_mid2 "Invalid JSON in " ": " e f
    | ok decoded =>
      rw [hj] at h
      dsimp only at h
      cases decoded with
      | jarr xs => simp at h
      | jnull =>
        injection h with h2; injection h2 with h3; rw [← h3]
        exact strContains_mid2 "Field " " must be a JSON array, got "
          (pyTypeName .jnull) f
      | jbool b =>
        injection h with h2; injection h2 with h3; rw [← h3]
        exact strContains_mid2 "Field " " must be a JSON array, got "
          (pyTypeName (.jbool b)) f
      | jnum n2 =>
        injection h with h2; injection h2 with h3; rw [← h3]
        exact strContains_mid2 "Field " " must be a JSON array, got "
          (pyTypeName (.jnum n2)) f
      | jstr s2 =>
        injection h with h2; injection h2 with h3; rw [← h3]
        exact strContains_mid2 "Field " " must be a JSON array, got "
          (pyTypeName (.jstr s2)) f
      | jobj fs2 =>
        injection h with h2; injection h2 with h3; rw [← h3]
        exact strContains_mid2 "Field " " must be a JSON array, got "
          (pyTypeName (.jobj fs2)) f
  | jnull =>
    rw [hv] at h
    dsimp only at h
    injection h with h2; injection h2 with h3; rw [← h3]
    exact strContains_mid2 "Field " " must be a JSON string array, got "
      (pyTypeName .jnull) f
  | jbool b =>
    rw [hv] at h
    dsimp only at h
    injection h with h2; injection h2 with h3; rw [← h3]
    exact strContains_mid2 "Field " " must be a JSON string array, got "
      (pyTypeName (.jbool b)) f
  | jnum n2 =>
    rw [hv] at h
    dsimp only at h
    injection h with h2; injection h2 with h3; rw [← h3]
    exact strContains_mid2 "Field " " must be a JSON string array, got "
      (pyTypeName (.jnum n2)) f
  | jarr xs =>
    rw [hv] at h
    dsimp only at h
    injection h with h2; injection h2 with h3; rw [← h3]
    exact strContains_mid2 "Field " " must be a JSON string array, got "
      (pyTypeName (.jarr xs)) f
  | jobj fs2 =>
    rw [hv] at h
    dsimp only at h
    injection h with h2; injection h2 with h3; rw [← h3]
    exact strContains_mid2 "Field " " must be a JSON string array, got "
      (pyTypeName (.jobj fs2)) f

/-- Counterexample for C9: a non-string `FAIL_TO_PASS` raises a
`StructuralError` whose message names the field and violation but does not
contain the originating file path. -/
theorem c9_counterexample :
    load_data_point "/p.json"
        (.parsed (.jobj [("instance_id", .jstr "i"), ("repo", .jstr "r"),
          ("base_commit", .jstr "b"), ("patch", .jstr "d"),
          ("FAIL_TO_PASS", .jnum 3), ("PASS_TO_PASS", .jstr "[]")]))
      = .error (.structuralExc
          "Field FAIL_TO_PASS must be a JSON string array, got int")
    ∧ strContains "Field FAIL_TO_PASS must be a JSON string array, got int"
        "/p.json" = false :=
  ⟨rfl, rfl⟩

/-- C9 as amended: every `StructuralError` raised by `load` names either
the originating file path (unreadable file, invalid top-level JSON, missing
required fields, empty patch) or the offending test-list field (non-string
field, non-array decode, invalid inner JSON) together with the violation;
the test-list messages omit the file path. -/
theorem c9_amended_structural_error_naming (filePath : String)
    (raw : RawFile) (m : String)
    (h : load_data_point filePath raw = .error (.structuralExc m)) :
    strContains m filePath = true
    ∨ strContains m "FAIL_TO_PASS" = true
    ∨ strContains m "PASS_TO_PASS" = true := by
  unfold load_data_point at h
  cases raw with
  | missing =>
    injection h with h2; injection h2 with h3; rw [← h3]
    exact Or.inl (strContains_end "File not found: " filePath)
  | unreadable m0 =>
    injection h with h2; injection h2 with h3; rw [← h3]
    exact Or.inl (strContains_mid2 "Error reading " ": " m0 filePath)
  | badJson m0 =>
    injection h with h2; injection h2 with h3; rw [← h3]
    exact Or.inl (strContains_mid2 "Invalid JSON in " ": " m0 filePath)
  | parsed v =>
    cases v with
    | jobj data =>
      dsimp only at h
      split at h
      · injection h with h2; injection h2 with h3; rw [← h3]
        exact Or.inl (strContains_mid2 "Missing required fields in " ": "
          (String.intercalate ", " (REQUIRED_FIELDS.filter
            (fun f => !data.any (fun p => p.1 == f)))) filePath)
      · cases hc1 : checkTestListField data "FAIL_TO_PASS" with
        | error e =>
          rw [hc1] at h
          injection h with h2
          subst h2
          exact Or.inr (Or.inl
            (checkTestListField_error_names_field data "FAIL_TO_PASS" m hc1))
        | ok u =>
          obtain ⟨⟩ := u
          rw [hc1] at h
          cases hc2 : checkTestListField data "PASS_TO_PASS" with
          | error e =>
            rw [hc2] at h
            injection h with h2
            subst h2
            exact Or.inr (Or.inr
              (checkTestListField_error_names_field data "PASS_TO_PASS" m hc2))
          | ok u =>
            obtain ⟨⟩ := u
            rw [hc2] at h
            dsimp only at h
            split at h
            · injection h with h2; injection h2 with h3; rw [← h3]
              exact Or.inl (strContains_end "Patch field is empty in " filePath)
            · split at h
              · split at h
                · injection h with h2; injection h2 with h3; rw [← h3]
                  exact Or.inl
                    (strContains_end "Patch field is empty in " filePath)
                · simp at h
              · simp at h
    | jnull => simp at h
    | jbool b => simp at h
    | jnum n => simp at h
    | jstr s => simp at h
    | jarr xs => simp at h

/-- Witness for C9 as amended: the missing-file message names the path. -/
theorem c9_witness :
    strContains "File not found: /p.json" "/p.json" = true
    ∨ strContains "File not found: /p.json" "FAIL_TO_PASS" = true
    ∨ strContains "File not found: /p.json" "PASS_TO_PASS" = true :=
  c9_amended_structural_error_naming "/p.json" RawFile.missing
    "File not found: /p.json" rfl

/-- C10: when the raw harness report has no test entries at all, the
all-UNKNOWN `ExecutionError` is not triggered: the empty mapping reaches the
Outcome Checker, which reports every `fail_to_pass` and `pass_to_pass` test
as a failing diagnostic with status UNKNOWN, so the final result is a failed
Outcome-style `ValidationResult` (with evaluation results attached) rather
than an execution error. -/
theorem c10_empty_report_outcome_failure
    (lgBase filePath tb iid fs ps : String) (raw : RawFile)
    (dp : List (String × JValue)) (evalReport : JValue)
    (f2p p2p : List JValue)
    (hload : load_data_point filePath raw = .ok dp)
    (hiid : alookup dp "instance_id" = some (.jstr iid))
    (hf : alookup dp "FAIL_TO_PASS" = some (.jstr fs))
    (hfp : jsonLoads fs = .ok (.jarr f2p))
    (hp : alookup dp "PASS_TO_PASS" = some (.jstr ps))
    (hpp : jsonLoads ps = .ok (.jarr p2p))
    (htests : dictGetS evalReport "tests" (.jobj []) = .ok (.jobj [])) :
    evalPhase iid (runInstanceLogPath lgBase iid) evalReport
      = .ok (.jobj [(iid, .jobj [])])
    ∧ (validate_file lgBase filePath tb raw
        (.report evalReport)).evaluationResults
      = some (.jobj [(iid, .jobj [])])
    ∧ (validate_file lgBase filePath tb raw (.report evalReport)).errors
      = f2p.map (fun t => f2pMsg (pyStr t) "UNKNOWN")
        ++ p2p.map (fun t => p2pMsg (pyStr t) "UNKNOWN")
    ∧ ((f2p ≠ [] ∨ p2p ≠ []) →
        (validate_file lgBase filePath tb raw
          (.report evalReport)).success = false) := by
  have hev : evalPhase iid (runInstanceLogPath lgBase iid) evalReport
      = .ok (.jobj [(iid, .jobj [])]) := by
    unfold evalPhase
    rw [htests]
    rfl
  have hvld : validate_evaluation_results dp (.jobj [(iid, .jobj [])])
      = .ok ((f2p.map (fun t => f2pMsg (pyStr t) "UNKNOWN")
          ++ p2p.map (fun t => p2pMsg (pyStr t) "UNKNOWN")).length == 0,
        f2p.map (fun t => f2pMsg (pyStr t) "UNKNOWN")
          ++ p2p.map (fun t => p2pMsg (pyStr t) "UNKNOWN")) := by
    have h1 := validate_eval_eq dp (.jobj [(iid, .jobj [])]) (.jstr iid)
      (.jstr fs) (.jstr ps) f2p p2p (.jobj [])
      (pyIndex_of_alookup dp "instance_id" (.jstr iid) hiid)
      (pyIndex_of_alookup dp "FAIL_TO_PASS" (.jstr fs) hf)
      (by simp [parse_test_list, hfp])
      (pyIndex_of_alookup dp "PASS_TO_PASS" (.jstr ps) hp)
      (by simp [parse_test_list, hpp])
      (resolve_single_empty iid)
    rw [h1, checkFold_empty]
    dsimp only
    rw [checkFold_empty]
    simp
  have hmain : validate_file lgBase filePath tb raw (.report evalReport)
      = mkResult iid filePath
          (f2p.map (fun t => f2pMsg (pyStr t) "UNKNOWN")
            ++ p2p.map (fun t => p2pMsg (pyStr t) "UNKNOWN"))
          (some (.jobj [(iid, .jobj [])])) := by
    unfold validate_file
    rw [hload]
    dsimp only
    rw [hiid]
    simp only [Option.getD_some, pyStr]
    rw [hev]
    dsimp only
    rw [hvld]
    rfl
  refine ⟨hev, ?_, ?_, ?_⟩
  · rw [hmain]; rfl
  · rw [hmain]; rfl
  · intro hne
    rw [hmain]
    show (f2p.map (fun t => f2pMsg (pyStr t) "UNKNOWN")
      ++ p2p.map (fun t => p2pMsg (pyStr t) "UNKNOWN")).isEmpty = false
    rcases hne with hne | hne
    · cases f2p with
      | nil => exact absurd rfl hne
      | cons a l => simp
    · cases p2p with
      | nil => exact absurd rfl hne
      | cons a l => simp

/-- Witness for C10: an empty report turns one expected test into one
UNKNOWN outcome diagnostic and a failed result. -/
theorem c10_witness :
    (validate_file "l" "/p.json" "tb"
        (.parsed (.jobj [("instance_id", .jstr "i"), ("repo", .jstr "r"),
          ("base_commit", .jstr "b"), ("patch", .jstr "d"),
          ("FAIL_TO_PASS", .jstr "[\"t1\"]"), ("PASS_TO_PASS", .jstr "[]")]))
        (.report (.jobj [("tests", .jobj [])]))).errors
      = [f2pMsg "t1" "UNKNOWN"]
    ∧ (validate_file "l" "/p.json" "tb"
        (.parsed (.jobj [("instance_id", .jstr "i"), ("repo", .jstr "r"),
          ("base_commit", .jstr "b"), ("patch", .jstr "d"),
          ("FAIL_TO_PASS", .jstr "[\"t1\"]"), ("PASS_TO_PASS", .jstr "[]")]))
        (.report (.jobj [("tests", .jobj [])]))).success = false := by
  have h := c10_empty_report_outcome_failure "l" "/p.json" "tb" "i"
    "[\"t1\"]" "[]"
    (.parsed (.jobj [("instance_id", .jstr "i"), ("repo", .jstr "r"),
      ("base_commit", .jstr "b"), ("patch", .jstr "d"),
      ("FAIL_TO_PASS", .jstr "[\"t1\"]"), ("PASS_TO_PASS", .jstr "[]")]))
    [("instance_id", .jstr "i"), ("repo", .jstr "r"),
      ("base_commit", .jstr "b"), ("patch", .jstr "d"),
      ("FAIL_TO_PASS", .jstr "[\"t1\"]"), ("PASS_TO_PASS", .jstr "[]")]
    (.jobj [("tests", .jobj [])])
    [JValue.jstr "t1"] []
    rfl rfl rfl rfl rfl rfl rfl
  exact ⟨h.2.2.1, h.2.2.2 (Or.inl (by simp))⟩

/-- Witness for C2 as amended: the two resolvers agree on a concrete raw
result with a direct instance-id hit. -/
theorem c2_witness :
    resolveInstanceResults (.jobj [("i", .jobj [("t1", .jstr "PASS")])])
        (.jstr "i")
      = resolveInstanceResultsAmended
          (.jobj [("i", .jobj [("t1", .jstr "PASS")])]) (.jstr "i") :=
  c2_amended_resolution_order (.jobj [("i", .jobj [("t1", .jstr "PASS")])])
    (.jstr "i")

/-- Witness for C7: a concrete listing is filtered to its JSON files,
sorted, and fully processed under the continue policy. -/
theorem c7_witness :
    validate_directory true (fun f => mkResult "i" f [] none)
        ["b.json", "a.json", "x.txt"]
      = (jsonFilesOf ["b.json", "a.json", "x.txt"]).map
          (fun f => mkResult "i" f [] none) :=
  (c7_batch_driver (fun f => mkResult "i" f [] none)
    ["b.json", "a.json", "x.txt"]).2.2.1

/-- Witness for C8 as amended: run identifiers of two concrete instance ids
agree exactly when the ids agree. -/
theorem c8_witness : (runId "a" = runId "b") ↔ ("a" : String) = "b" :=
  c8_amended_run_id_deterministic "a" "b"

end SweBenchValidator
